import Mathlib

set_option maxRecDepth 8192

/-!
Verification of the color-palette-generator core
(`src/components/ColorPaletteGenerator.vue`).

The component's script is shallowly embedded here:
* JS numbers that only ever hold integers (hue/saturation/lightness fields,
  RGB channels) become `Int` or `Nat`;
* the fractional arithmetic inside `HSLToRGB` / `hexToHSL` becomes exact `ℚ`
  arithmetic, with `Math.round x` modelled as `⌊x + 1/2⌋` and the JS `%`
  operator on nonnegative operands modelled accordingly;
* the reactive state (`baseColor`, `palette`, `selectedColor`,
  `selectedShade`) becomes an explicit `State` record, and each method plus
  the `watch`-triggered regeneration becomes a `State → State` function.
-/

namespace ColorPalette

/-- The `Color` interface: an HSL triple.  The optional `shades` list of the
source interface is carried by `PaletteColor` below (only palette entries
ever hold shades); the optional `rowIndex`/`index` fields are carried by
`Shade`. -/
structure Color where
  h : Int
  s : Int
  l : Int
  deriving DecidableEq, Repr

/-- A palette entry: a color together with its `shades` array
(initialised to `[]` by `generatePalette`). -/
structure PaletteColor where
  h : Int
  s : Int
  l : Int
  shades : List Color
  deriving DecidableEq, Repr

/-- The value stored by `selectShade`: a shade color together with the
`rowIndex`/`index` address it was clicked at. -/
structure Shade where
  h : Int
  s : Int
  l : Int
  rowIndex : Nat
  index : Nat
  deriving DecidableEq, Repr

/-- The component's reactive state: `baseColor`, `palette`,
`selectedColor` and `selectedShade`.  (`hexInput` is passed to
`handleHexInput` as an argument.) -/
structure State where
  baseColor : Color
  palette : List PaletteColor
  selectedColor : Option Nat
  selectedShade : Option Shade
  deriving DecidableEq, Repr

/-! ## generatePalette -/

/-- The body of `generatePalette`'s `for` loop: `k` is the number of
iterations left, `i` the current loop index, `hue` the running
`currentHue`.  Each iteration pushes `{h: currentHue % 360, s, l,
shades: []}` and then advances `currentHue` by 90 after index 1, by 60
after index 7, and by 30 otherwise.  JS `%` on numbers truncates toward
zero, i.e. `Int.tmod`. -/
def generatePaletteAux (s l : Int) : Nat → Nat → Int → List PaletteColor
  | 0, _, _ => []
  | k + 1, i, hue =>
      { h := Int.tmod hue 360, s := s, l := l, shades := [] } ::
        generatePaletteAux s l k (i + 1)
          (hue + if i = 1 then 90 else if i = 7 then 60 else 30)

/-- `generatePalette`'s new palette: 8 colors starting at
`currentHue = baseColor.h`. -/
def generatePaletteList (base : Color) : List PaletteColor :=
  generatePaletteAux base.s base.l 8 0 base.h

/-! ## generateShades (the 15-entry shade list) -/

/-- The fixed lightness sequence of `generateShades`. -/
def lightnesses : List Int := [80, 70, 60, 50, 40]

/-- The 15-entry `newShades` array built by `generateShades`: the
lightness sequence at base saturation, then at `min(100, s+20)`, then at
`max(0, s-20)`, hue unchanged throughout. -/
def generateShadesList (c : Color) : List Color :=
  lightnesses.map (fun l => { h := c.h, s := c.s, l := l }) ++
    lightnesses.map (fun l => { h := c.h, s := min 100 (c.s + 20), l := l }) ++
    lightnesses.map (fun l => { h := c.h, s := max 0 (c.s - 20), l := l })

/-! ## State transitions -/

/-- Replace the `shades` field of the entry at position `n`
(no-op when `n` is out of range), modelling
`palette.value[index].shades = newShades`. -/
def setShades : List PaletteColor → Nat → List Color → List PaletteColor
  | [], _, _ => []
  | p :: ps, 0, sh => { p with shades := sh } :: ps
  | p :: ps, n + 1, sh => p :: setShades ps n sh

/-- The `generatePalette` method: replaces `palette.value` with the list
generated from the current base color. -/
def generatePalette (st : State) : State :=
  { st with palette := generatePaletteList st.baseColor }

/-- The `generateShades` method.  The guard `palette.value[index]`
is truthy exactly when `index` is a valid position (entries are objects,
hence always truthy; a negative or too-large index yields `undefined`).
Inside the guard it stores the new shades on the entry, selects the
palette index, and clears the selected shade; otherwise nothing happens. -/
def generateShades (c : Color) (index : Int) (st : State) : State :=
  let newShades := generateShadesList c
  if 0 ≤ index ∧ index.toNat < st.palette.length then
    { st with
        palette := setShades st.palette index.toNat newShades,
        selectedColor := some index.toNat,
        selectedShade := none }
  else st

/-- A field edit of the base color (slider input) setting it to `c`.
The `watch(() => ({...baseColor}), () => generatePalette())` callback
runs after the mutation, so the edit composes with `generatePalette`;
Vue skips the callback when no field actually changed, hence the
equality test. -/
def editBase (c : Color) (st : State) : State :=
  if c = st.baseColor then { st with baseColor := c }
  else generatePalette { st with baseColor := c }

/-- The `selectShade` method. -/
def selectShade (sh : Shade) (st : State) : State :=
  { st with selectedShade := some sh }

/-! ## Numeric conversion routines

The conversions compute with fractional JS numbers; they are embedded
over `ℚ`. -/

/-- `Math.min` on two JS numbers, as exact rationals. -/
def mathMin (a b : ℚ) : ℚ := if a ≤ b then a else b

/-- `Math.max` on two JS numbers, as exact rationals. -/
def mathMax (a b : ℚ) : ℚ := if b ≤ a then a else b

/-- `Math.round` for the nonnegative values produced here:
round half away from zero, i.e. `⌊x + 1/2⌋`. -/
def jsRound (q : ℚ) : Int := ⌊q + 1 / 2⌋

/-- Truncation toward zero on `ℚ` (the integer part JS `%` is built from). -/
def ratTrunc (q : ℚ) : Int := if 0 ≤ q then ⌊q⌋ else ⌈q⌉

/-- The JS `%` operator on fractional numbers:
`x % y = x - y * trunc (x / y)`. -/
def jsModQ (x y : ℚ) : ℚ := x - y * ratTrunc (x / y)

/-- `HSLToRGB(h, s, l)`: normalise `s`,`l` to `[0,1]`, then for channel
offsets `n ∈ {0, 8, 4}` compute `k = (n + h/30) % 12`,
`a = s * min(l, 1-l)`,
`f n = l - a * max(-1, min(k-3, min(9-k, 1)))`, and round `255 * f n`.
Returns `(r, g, b)`. -/
def HSLToRGB (h s0 l0 : ℚ) : Int × Int × Int :=
  let s := s0 / 100
  let l := l0 / 100
  let k : ℚ → ℚ := fun n => jsModQ (n + h / 30) 12
  let a := s * mathMin l (1 - l)
  let f : ℚ → ℚ := fun n =>
    l - a * mathMax (-1) (mathMin (k n - 3) (mathMin (9 - k n) 1))
  (jsRound (255 * f 0), jsRound (255 * f 8), jsRound (255 * f 4))

/-- `c.toString(16)` for the natural channel values at hand:
base-16 digits, lowercase. -/
def toStringBase16 (c : Nat) : List Char := Nat.toDigits 16 c

/-- `toHex` inside `RGBToHex`: the base-16 string, left-padded with `'0'`
to two characters when it has length 1. -/
def toHexPadded (c : Nat) : List Char :=
  let hx := toStringBase16 c
  if hx.length = 1 then '0' :: hx else hx

/-- `RGBToHex(r, g, b) = "#" + toHex(r) + toHex(g) + toHex(b)`. -/
def RGBToHex (r g b : Nat) : String :=
  String.mk ('#' :: (toHexPadded r ++ toHexPadded g ++ toHexPadded b))

/-- `hex.replace(/^#/, '')`: drop one leading `'#'` if present. -/
def stripHash : List Char → List Char
  | [] => []
  | c :: r => if c = '#' then r else c :: r

/-- One character of the regex class `[0-9A-Fa-f]`, by character code. -/
def isHexDigitJS (c : Char) : Bool :=
  let n := c.toNat
  (48 ≤ n && n ≤ 57) || (97 ≤ n && n ≤ 102) || (65 ≤ n && n ≤ 70)

/-- The numeric value `parseInt` assigns to one hex digit
(0 for characters outside the class, a case that never arises under the
regex guard). -/
def hexVal (c : Char) : Nat :=
  let n := c.toNat
  if 48 ≤ n ∧ n ≤ 57 then n - 48
  else if 97 ≤ n ∧ n ≤ 102 then n - 87
  else if 65 ≤ n ∧ n ≤ 70 then n - 55
  else 0

/-- `parseInt` of a two-hex-digit slice. -/
def parseHexPair (a b : Char) : Nat := 16 * hexVal a + hexVal b

/-- The arithmetic core of `hexToHSL`, on the three channels already
normalised to `[0,1]`: lightness `(max+min)/2`; achromatic when
`max == min`; otherwise saturation from the chroma `d` by the `l > 0.5`
split, hue by which channel the `switch` matches first (`r`, then `g`,
then `b`), divided by 6; all three results rounded after scaling. -/
def hexToHSLnum (r g b : ℚ) : Int × Int × Int :=
  let mx := mathMax r (mathMax g b)
  let mn := mathMin r (mathMin g b)
  let l := (mx + mn) / 2
  let hs : ℚ × ℚ :=
    if mx = mn then (0, 0)
    else
      let d := mx - mn
      let s := if l > 1 / 2 then d / (2 - mx - mn) else d / (mx + mn)
      let h :=
        if mx = r then (g - b) / d + (if g < b then 6 else 0)
        else if mx = g then (b - r) / d + 2
        else if mx = b then (r - g) / d + 4
        else 0
      (h / 6, s)
  (jsRound (hs.1 * 360), jsRound (hs.2 * 100), jsRound (l * 100))

/-- The character-level part of `hexToHSL` after the `'#'` strip: parse
the three channel pairs at positions 0-1, 2-3, 4-5 (`slice(0,2)`,
`slice(2,4)`, `slice(4,6)`), divide by 255 and run the arithmetic core.
This models the source on every character list with at least six entries
(the guarded call sites only pass regex-validated strings). -/
def hexToHSLdata : List Char → Int × Int × Int
  | c0 :: c1 :: c2 :: c3 :: c4 :: c5 :: _ =>
      hexToHSLnum ((parseHexPair c0 c1 : ℚ) / 255)
        ((parseHexPair c2 c3 : ℚ) / 255) ((parseHexPair c4 c5 : ℚ) / 255)
  | _ => (0, 0, 0)

/-- `hexToHSL(hex)`: strip a leading `'#'` and process the characters. -/
def hexToHSL (s : String) : Int × Int × Int :=
  hexToHSLdata (stripHash s.data)

/-- The hue fraction (the source's `h` just before `Math.round(h * 360)`)
of `hexToHSLnum`, named separately for the range analysis. -/
def hueFrac (r g b : ℚ) : ℚ :=
  let mx := mathMax r (mathMax g b)
  let mn := mathMin r (mathMin g b)
  if mx = mn then 0
  else
    (if mx = r then (g - b) / (mx - mn) + (if g < b then 6 else 0)
     else if mx = g then (b - r) / (mx - mn) + 2
     else if mx = b then (r - g) / (mx - mn) + 4
     else 0) / 6

/-- The saturation fraction (the source's `s` just before
`Math.round(s * 100)`) of `hexToHSLnum`, named separately for the range
analysis. -/
def satFrac (r g b : ℚ) : ℚ :=
  let mx := mathMax r (mathMax g b)
  let mn := mathMin r (mathMin g b)
  if mx = mn then 0
  else if (mx + mn) / 2 > 1 / 2 then (mx - mn) / (2 - mx - mn)
  else (mx - mn) / (mx + mn)

/-- The test `^#?[0-9A-Fa-f]{6}$` of `handleHexInput`: an optional
leading `'#'` followed by exactly six hex digits. -/
def hex6 : List Char → Bool
  | [c0, c1, c2, c3, c4, c5] =>
      isHexDigitJS c0 && isHexDigitJS c1 && isHexDigitJS c2 &&
        isHexDigitJS c3 && isHexDigitJS c4 && isHexDigitJS c5
  | _ => false

/-- Whether the full regex `^#?[0-9A-Fa-f]{6}$` accepts the string. -/
def validHex (s : String) : Bool := hex6 (stripHash s.data)

/-- Pack a `hexToHSL` result into a `Color`
(the `Object.assign(baseColor, hsl)` step). -/
def colorOfHSL (t : Int × Int × Int) : Color :=
  { h := t.1, s := t.2.1, l := t.2.2 }

/-- `handleHexInput`: when the regex accepts the input, assign the parsed
HSL onto the base color via `Object.assign`; the watch callback then
regenerates the palette, unless every assigned field equals the current
one (in which case Vue detects no change and skips the callback). -/
def handleHexInput (input : String) (st : State) : State :=
  if validHex input then
    if colorOfHSL (hexToHSL input) = st.baseColor then
      { st with baseColor := colorOfHSL (hexToHSL input) }
    else generatePalette { st with baseColor := colorOfHSL (hexToHSL input) }
  else st

/-- The round trip of claim C3:
`HSLToRGB` of `hexToHSL` of `RGBToHex`. -/
def roundTrip (r g b : Nat) : Int × Int × Int :=
  let hsl := hexToHSL (RGBToHex r g b)
  HSLToRGB (hsl.1 : ℚ) (hsl.2.1 : ℚ) (hsl.2.2 : ℚ)

/-- The component's initial state: the default base color, the palette
the `immediate: true` watch generates from it, and no selections. -/
def initState : State :=
  { baseColor := { h := 45, s := 70, l := 60 },
    palette := generatePaletteList { h := 45, s := 70, l := 60 },
    selectedColor := none,
    selectedShade := none }

/-- Two lowercase hex digits, most significant first and zero-padded:
the format each channel must take inside the hex string. -/
def lowerHexPair (c : Nat) : List Char :=
  [Nat.digitChar (c / 16), Nat.digitChar (c % 16)]

/-- The sixteen lowercase hexadecimal digit characters. -/
def lowerHexDigits : List Char := "0123456789abcdef".data

/-! ## Helper lemmas -/

theorem tmod_eq_emod_360 (a : Int) (ha : 0 ≤ a) : Int.tmod a 360 = a % 360 := by
  rw [Int.tmod_eq_emod] <;> omega

theorem generatePaletteAux_shades (s l : Int) :
    ∀ (k i : Nat) (hue : Int) (pc : PaletteColor),
      pc ∈ generatePaletteAux s l k i hue → pc.shades = [] := by
  intro k
  induction k with
  | zero => intro i hue pc hpc; simp [generatePaletteAux] at hpc
  | succ n ih =>
      intro i hue pc hpc
      rw [generatePaletteAux, List.mem_cons] at hpc
      rcases hpc with h | h
      · rw [h]
      · exact ih _ _ _ h

theorem generatePaletteList_length (b : Color) :
    (generatePaletteList b).length = 8 := rfl

theorem generatePaletteList_shades (b : Color) :
    ∀ pc ∈ generatePaletteList b, pc.shades = [] := fun pc h =>
  generatePaletteAux_shades b.s b.l 8 0 b.h pc h

theorem toHexPadded_two (c : Nat) (h : c < 256) : toHexPadded c = lowerHexPair c := by
  revert h
  revert c
  decide

theorem parse_lowerHexPair (c : Nat) (h : c < 256) :
    parseHexPair (Nat.digitChar (c / 16)) (Nat.digitChar (c % 16)) = c := by
  revert h
  revert c
  decide

theorem jsRound_div (n : ℤ) (d : ℕ) (hd : 0 < d) :
    jsRound ((n : ℚ) / (d : ℚ)) = (2 * n + d) / (2 * d : ℤ) := by
  have hdq : ((d : ℚ)) ≠ 0 := by positivity
  have harg : (n : ℚ) / (d : ℚ) + 1 / 2 = ((2 * n + d : ℤ) : ℚ) / ((2 * d : ℕ) : ℚ) := by
    push_cast
    field_simp
    ring
  rw [jsRound, harg, Rat.floor_intCast_div_natCast]
  push_cast
  rfl

theorem RGBToHex_data (r g b : Nat) (hr : r < 256) (hg : g < 256) (hb : b < 256) :
    (RGBToHex r g b).data
      = '#' :: (lowerHexPair r ++ lowerHexPair g ++ lowerHexPair b) := by
  rw [RGBToHex]
  show ('#' :: (toHexPadded r ++ toHexPadded g ++ toHexPadded b)) = _
  rw [toHexPadded_two r hr, toHexPadded_two g hg, toHexPadded_two b hb]

theorem hexToHSL_RGBToHex (r g b : Nat) (hr : r < 256) (hg : g < 256) (hb : b < 256) :
    hexToHSL (RGBToHex r g b)
      = hexToHSLnum ((r : ℚ) / 255) ((g : ℚ) / 255) ((b : ℚ) / 255) := by
  rw [hexToHSL, RGBToHex_data r g b hr hg hb]
  show hexToHSLdata
      (stripHash ('#' :: (lowerHexPair r ++ lowerHexPair g ++ lowerHexPair b))) = _
  rw [show stripHash ('#' :: (lowerHexPair r ++ lowerHexPair g ++ lowerHexPair b))
      = lowerHexPair r ++ lowerHexPair g ++ lowerHexPair b by simp [stripHash]]
  show hexToHSLnum ((parseHexPair (Nat.digitChar (r / 16)) (Nat.digitChar (r % 16)) : ℚ) / 255)
      ((parseHexPair (Nat.digitChar (g / 16)) (Nat.digitChar (g % 16)) : ℚ) / 255)
      ((parseHexPair (Nat.digitChar (b / 16)) (Nat.digitChar (b % 16)) : ℚ) / 255) = _
  rw [parse_lowerHexPair r hr, parse_lowerHexPair g hg, parse_lowerHexPair b hb]

theorem hexToHSLnum_gray (x : ℚ) : hexToHSLnum x x x = (0, 0, jsRound (x * 100)) := by
  rw [hexToHSLnum]
  simp [mathMax, mathMin, jsRound, add_self_div_two]
  norm_num

theorem HSLToRGB_sat_zero (h l : ℚ) :
    HSLToRGB h 0 l =
      (jsRound (255 * (l / 100)), jsRound (255 * (l / 100)), jsRound (255 * (l / 100))) := by
  rw [HSLToRGB]
  norm_num

theorem le_mathMax_left (a b : ℚ) : a ≤ mathMax a b := by
  rw [mathMax]; split <;> linarith

theorem le_mathMax_right (a b : ℚ) : b ≤ mathMax a b := by
  rw [mathMax]; split <;> linarith

theorem mathMax_le {a b c : ℚ} (h1 : a ≤ c) (h2 : b ≤ c) : mathMax a b ≤ c := by
  rw [mathMax]; split <;> linarith

theorem mathMin_le_left (a b : ℚ) : mathMin a b ≤ a := by
  rw [mathMin]; split <;> linarith

theorem mathMin_le_right (a b : ℚ) : mathMin a b ≤ b := by
  rw [mathMin]; split <;> linarith

theorem le_mathMin {a b c : ℚ} (h1 : c ≤ a) (h2 : c ≤ b) : c ≤ mathMin a b := by
  rw [mathMin]; split <;> linarith

theorem jsRound_nonneg {q : ℚ} (h : 0 ≤ q) : 0 ≤ jsRound q := by
  rw [jsRound]
  exact Int.floor_nonneg.2 (by linarith)

theorem jsRound_le_of_le {q : ℚ} {N : ℤ} (h : q ≤ N) : jsRound q ≤ N := by
  rw [jsRound]
  calc ⌊q + 1 / 2⌋ ≤ ⌊(1 : ℚ) / 2 + (N : ℚ)⌋ := Int.floor_le_floor (by linarith)
    _ = N := by rw [Int.floor_add_int]; norm_num

theorem hexToHSLnum_eq (r g b : ℚ) :
    hexToHSLnum r g b =
      (jsRound (hueFrac r g b * 360), jsRound (satFrac r g b * 100),
        jsRound ((mathMax r (mathMax g b) + mathMin r (mathMin g b)) / 2 * 100)) := by
  rw [hexToHSLnum, hueFrac, satFrac]
  by_cases hc : mathMax r (mathMax g b) = mathMin r (mathMin g b) <;> simp [hc]

theorem satFrac_bounds (r g b : ℚ) (hr0 : 0 ≤ r) (hr1 : r ≤ 1) (hg0 : 0 ≤ g)
    (hg1 : g ≤ 1) (hb0 : 0 ≤ b) (hb1 : b ≤ 1) :
    0 ≤ satFrac r g b ∧ satFrac r g b ≤ 1 := by
  rw [satFrac]
  set mx := mathMax r (mathMax g b) with hmxdef
  set mn := mathMin r (mathMin g b) with hmndef
  have hmx1 : mx ≤ 1 := mathMax_le hr1 (mathMax_le hg1 hb1)
  have hmn0 : 0 ≤ mn := le_mathMin hr0 (le_mathMin hg0 hb0)
  have hmnmx : mn ≤ mx := le_trans (mathMin_le_left _ _) (le_mathMax_left _ _)
  by_cases hc : mx = mn
  · rw [if_pos hc]; norm_num
  · rw [if_neg hc]
    have hlt : mn < mx := lt_of_le_of_ne hmnmx (Ne.symm hc)
    by_cases hl : (mx + mn) / 2 > 1 / 2
    · rw [if_pos hl]
      have hden : 0 < 2 - mx - mn := by
        have h1 : mn < 1 := lt_of_lt_of_le hlt hmx1
        linarith
      constructor
      · apply div_nonneg <;> linarith
      · rw [div_le_one hden]; linarith
    · rw [if_neg hl]
      have hden : 0 < mx + mn := by
        have h1 : 0 < mx := lt_of_le_of_lt hmn0 hlt
        linarith
      constructor
      · apply div_nonneg <;> linarith
      · rw [div_le_one hden]; linarith

theorem hueFrac_bounds (r g b : ℚ) :
    0 ≤ hueFrac r g b ∧ hueFrac r g b ≤ 1 := by
  rw [hueFrac]
  set mx := mathMax r (mathMax g b) with hmxdef
  set mn := mathMin r (mathMin g b) with hmndef
  have hmnmx : mn ≤ mx := le_trans (mathMin_le_left _ _) (le_mathMax_left _ _)
  by_cases hc : mx = mn
  · rw [if_pos hc]; norm_num
  · rw [if_neg hc]
    have hlt : mn < mx := lt_of_le_of_ne hmnmx (Ne.symm hc)
    have hd : 0 < mx - mn := by linarith
    have hrmx : r ≤ mx := le_mathMax_left _ _
    have hgmx : g ≤ mx := le_trans (le_mathMax_left _ _) (le_mathMax_right _ _)
    have hbmx : b ≤ mx := le_trans (le_mathMax_right _ _) (le_mathMax_right _ _)
    have hmnr : mn ≤ r := mathMin_le_left _ _
    have hmng : mn ≤ g := le_trans (mathMin_le_right _ _) (mathMin_le_left _ _)
    have hmnb : mn ≤ b := le_trans (mathMin_le_right _ _) (mathMin_le_right _ _)
    have key : ∀ x y : ℚ, mn ≤ x → x ≤ mx → mn ≤ y → y ≤ mx →
        -1 ≤ (x - y) / (mx - mn) ∧ (x - y) / (mx - mn) ≤ 1 := by
      intro x y h1 h2 h3 h4
      constructor
      · rw [le_div_iff₀ hd]; linarith
      · rw [div_le_one hd]; linarith
    have hH : 0 ≤ (if mx = r then (g - b) / (mx - mn) + (if g < b then 6 else 0)
          else if mx = g then (b - r) / (mx - mn) + 2
          else if mx = b then (r - g) / (mx - mn) + 4
          else 0) ∧
        (if mx = r then (g - b) / (mx - mn) + (if g < b then 6 else 0)
          else if mx = g then (b - r) / (mx - mn) + 2
          else if mx = b then (r - g) / (mx - mn) + 4
          else 0) ≤ 6 := by
      split_ifs with h1 h2 h3 h4
      · obtain ⟨k1, k2⟩ := key g b hmng hgmx hmnb hbmx
        have hle0 : (g - b) / (mx - mn) ≤ 0 := by
          rw [div_le_iff₀ hd]; linarith
        constructor <;> linarith
      · obtain ⟨k1, k2⟩ := key g b hmng hgmx hmnb hbmx
        have hge0 : 0 ≤ (g - b) / (mx - mn) := by
          apply div_nonneg <;> linarith
        constructor <;> linarith
      · obtain ⟨k1, k2⟩ := key b r hmnb hbmx hmnr hrmx
        constructor <;> linarith
      · obtain ⟨k1, k2⟩ := key r g hmnr hrmx hmng hgmx
        constructor <;> linarith
      · norm_num
    constructor
    · apply div_nonneg
      · exact hH.1
      · norm_num
    · rw [div_le_one (by norm_num : (0:ℚ) < 6)]
      exact hH.2

theorem hexVal_le (c : Char) : hexVal c ≤ 15 := by
  simp only [hexVal]
  split_ifs <;> omega

theorem parseHexPair_le (a b : Char) : parseHexPair a b ≤ 255 := by
  have ha := hexVal_le a
  have hb := hexVal_le b
  rw [parseHexPair]
  omega

theorem channel_frac_bounds (a b : Char) :
    0 ≤ (parseHexPair a b : ℚ) / 255 ∧ (parseHexPair a b : ℚ) / 255 ≤ 1 := by
  constructor
  · positivity
  · rw [div_le_one (by norm_num : (0:ℚ) < 255)]
    exact_mod_cast parseHexPair_le a b

theorem hexToHSLnum_bounds (r g b : ℚ) (hr0 : 0 ≤ r) (hr1 : r ≤ 1) (hg0 : 0 ≤ g)
    (hg1 : g ≤ 1) (hb0 : 0 ≤ b) (hb1 : b ≤ 1) :
    0 ≤ (hexToHSLnum r g b).1 ∧ (hexToHSLnum r g b).1 ≤ 360 ∧
    0 ≤ (hexToHSLnum r g b).2.1 ∧ (hexToHSLnum r g b).2.1 ≤ 100 ∧
    0 ≤ (hexToHSLnum r g b).2.2 ∧ (hexToHSLnum r g b).2.2 ≤ 100 := by
  obtain ⟨hh0, hh1⟩ := hueFrac_bounds r g b
  obtain ⟨hs0, hs1⟩ := satFrac_bounds r g b hr0 hr1 hg0 hg1 hb0 hb1
  have hmx1 : mathMax r (mathMax g b) ≤ 1 := mathMax_le hr1 (mathMax_le hg1 hb1)
  have hmn0 : 0 ≤ mathMin r (mathMin g b) := le_mathMin hr0 (le_mathMin hg0 hb0)
  have hmn1 : mathMin r (mathMin g b) ≤ 1 := le_trans (mathMin_le_left _ _) hr1
  have hmx0 : 0 ≤ mathMax r (mathMax g b) := le_trans hr0 (le_mathMax_left _ _)
  rw [hexToHSLnum_eq]
  refine ⟨jsRound_nonneg (mul_nonneg hh0 (by norm_num)), jsRound_le_of_le ?_,
    jsRound_nonneg (mul_nonneg hs0 (by norm_num)), jsRound_le_of_le ?_,
    jsRound_nonneg (mul_nonneg (by linarith) (by norm_num)), jsRound_le_of_le ?_⟩
  · push_cast; linarith
  · push_cast; linarith
  · push_cast; linarith

/-! ## Claims -/

/-- C1: for every base color with nonnegative hue (the data-model range
is [0,360)), `generatePalette` yields exactly the 8 colors that keep the
base `s`, `l` and whose hue at index `i` is `(base.h + dᵢ) mod 360` for
the offset sequence `[0, 30, 120, 150, 180, 210, 240, 270]`. -/
theorem generatePalette_hue_sequence (base : Color) (hh : 0 ≤ base.h) :
    generatePaletteList base =
      ([0, 30, 120, 150, 180, 210, 240, 270] : List Int).map
        (fun d => { h := (base.h + d) % 360, s := base.s, l := base.l, shades := [] }) := by
  simp only [generatePaletteList, generatePaletteAux, List.map_cons, List.map_nil]
  norm_num [PaletteColor.mk.injEq]
  and_intros <;> (rw [tmod_eq_emod_360 _ (by omega)]; try omega)

/-- Witness for C1 at the default base color {h:45, s:70, l:60}; the
resulting hues are [45, 75, 165, 195, 225, 255, 285, 315]. -/
theorem generatePalette_hue_sequence_witness :
    (0 : Int) ≤ (45 : Int) ∧
    generatePaletteList { h := 45, s := 70, l := 60 } =
      ([0, 30, 120, 150, 180, 210, 240, 270] : List Int).map
        (fun d => { h := (45 + d) % 360, s := 70, l := 60, shades := [] }) ∧
    (generatePaletteList { h := 45, s := 70, l := 60 }).map PaletteColor.h =
      [45, 75, 165, 195, 225, 255, 285, 315] :=
  ⟨by decide, generatePalette_hue_sequence { h := 45, s := 70, l := 60 } (by decide),
    by decide⟩

/-- C2: for a color with `s`, `l` in [0,100], `generateShades` returns
15 colors, all with the source hue; entries 0-4 keep `s`, entries 5-9
use `min 100 (s+20)`, entries 10-14 use `max 0 (s-20)`, and each group
of five runs through the lightnesses [80, 70, 60, 50, 40] in order. -/
theorem generateShades_structure (c : Color) (_hs : 0 ≤ c.s ∧ c.s ≤ 100)
    (_hl : 0 ≤ c.l ∧ c.l ≤ 100) :
    (generateShadesList c).length = 15 ∧
      ∀ i : Nat, i < 15 →
        (generateShadesList c).get? i =
          some { h := c.h,
                 s := if i < 5 then c.s
                      else if i < 10 then min 100 (c.s + 20)
                      else max 0 (c.s - 20),
                 l := (([80, 70, 60, 50, 40] : List Int).get? (i % 5)).getD 0 } := by
  refine ⟨rfl, ?_⟩
  intro i hi
  interval_cases i <;> rfl

/-- Witness for C2 at {h:200, s:50, l:60}: 15 shades, and entry 7 (group
2, position 2) is {h:200, s:70, l:60}. -/
theorem generateShades_structure_witness :
    ((0:Int) ≤ 50 ∧ (50:Int) ≤ 100) ∧ ((0:Int) ≤ 60 ∧ (60:Int) ≤ 100) ∧
    (generateShadesList { h := 200, s := 50, l := 60 }).length = 15 ∧
    (generateShadesList { h := 200, s := 50, l := 60 }).get? 7 =
      some { h := 200, s := 70, l := 60 } := by
  refine ⟨by decide, by decide,
    (generateShades_structure { h := 200, s := 50, l := 60 } (by decide) (by decide)).1, ?_⟩
  have h :=
    (generateShades_structure { h := 200, s := 50, l := 60 } (by decide) (by decide)).2 7
      (by decide)
  simpa using h

/-- C5: a hex input the regex `^#?[0-9A-Fa-f]{6}$` rejects (such as
"GGGGGG", "#12345", "1234567") leaves the state - in particular the base
color - unchanged, and the handler is a total function (no error); for
any six hex digits `x`, both `"#" ++ x` and `x` are accepted and lead to
the identical state, whose base color is the parsed HSL value. -/
theorem handleHexInput_validation :
    (∀ (st : State) (input : String), validHex input = false →
      handleHexInput input st = st) ∧
    (validHex "GGGGGG" = false ∧ validHex "#12345" = false ∧
      validHex "1234567" = false) ∧
    (∀ (st : State) (x : String), hex6 x.data = true →
      validHex ("#" ++ x) = true ∧ validHex x = true ∧
      handleHexInput ("#" ++ x) st = handleHexInput x st ∧
      (handleHexInput x st).baseColor = colorOfHSL (hexToHSL x)) := by
  refine ⟨?_, by decide, ?_⟩
  · intro st input hv
    rw [handleHexInput, hv]
    simp
  · intro st x hx
    obtain ⟨l⟩ := x
    rcases l with _ | ⟨c0, _ | ⟨c1, _ | ⟨c2, _ | ⟨c3, _ | ⟨c4, _ | ⟨c5, _ | ⟨c6, t⟩⟩⟩⟩⟩⟩⟩ <;>
        simp only [hex6] at hx <;>
      try exact absurd hx Bool.false_ne_true
    have hdata : (("#" ++ ⟨[c0, c1, c2, c3, c4, c5]⟩ : String)).data
        = '#' :: [c0, c1, c2, c3, c4, c5] := rfl
    have hxa := hx
    simp only [Bool.and_eq_true] at hxa
    have hd0 : isHexDigitJS c0 = true := hxa.1.1.1.1.1
    have hc0 : ¬ c0 = '#' := by
      intro he
      rw [he] at hd0
      exact absurd hd0 (by decide)
    have hs1 : stripHash ('#' :: [c0, c1, c2, c3, c4, c5]) = [c0, c1, c2, c3, c4, c5] := by
      simp [stripHash]
    have hs2 : stripHash [c0, c1, c2, c3, c4, c5] = [c0, c1, c2, c3, c4, c5] := by
      simp [stripHash, hc0]
    have hv1 : validHex ("#" ++ ⟨[c0, c1, c2, c3, c4, c5]⟩) = true := by
      rw [validHex, hdata, hs1]; exact hx
    have hv2 : validHex ⟨[c0, c1, c2, c3, c4, c5]⟩ = true := by
      rw [validHex]
      show hex6 (stripHash [c0, c1, c2, c3, c4, c5]) = true
      rw [hs2]; exact hx
    have hhsl : hexToHSL ("#" ++ ⟨[c0, c1, c2, c3, c4, c5]⟩)
        = hexToHSL ⟨[c0, c1, c2, c3, c4, c5]⟩ := by
      rw [hexToHSL, hexToHSL, hdata, hs1]
      show hexToHSLdata [c0, c1, c2, c3, c4, c5]
        = hexToHSLdata (stripHash [c0, c1, c2, c3, c4, c5])
      rw [hs2]
    refine ⟨hv1, hv2, ?_, ?_⟩
    · rw [handleHexInput, handleHexInput, hv1, hv2, hhsl]
    · rw [handleHexInput, hv2]
      simp only [if_true]
      split <;> rfl

/-- Witness for C5: "GGGGGG" is rejected and leaves the initial state
unchanged; "#aabbcc" and "aabbcc" give the same resulting state. -/
theorem handleHexInput_validation_witness :
    validHex "GGGGGG" = false ∧ handleHexInput "GGGGGG" initState = initState ∧
    hex6 ("aabbcc" : String).data = true ∧
    handleHexInput "#aabbcc" initState = handleHexInput "aabbcc" initState := by
  refine ⟨by decide, handleHexInput_validation.1 initState "GGGGGG" (by decide),
    by decide, ?_⟩
  have h := (handleHexInput_validation.2.2 initState "aabbcc" (by decide)).2.2.1
  rw [show ("#" ++ "aabbcc" : String) = "#aabbcc" from rfl] at h
  exact h

/-- C6: from any state with a palette color and a shade selected, any
base-color mutation (a direct field edit `editBase`, or a successful hex
parse `handleHexInput`) regenerates the palette to 8 fresh entries, every
one of which has an empty `shades` list - so the stale shade selection no
longer refers to any shade of the palette. -/
theorem baseMutation_invalidates_shades (st : State) (i : Nat) (sh : Shade)
    (_hsel : st.selectedColor = some i) (_hshade : st.selectedShade = some sh) :
    (∀ c : Color, c ≠ st.baseColor →
      (editBase c st).palette.length = 8 ∧
      ∀ pc ∈ (editBase c st).palette, pc.shades = []) ∧
    (∀ input : String, validHex input = true →
      colorOfHSL (hexToHSL input) ≠ st.baseColor →
      (handleHexInput input st).palette.length = 8 ∧
      ∀ pc ∈ (handleHexInput input st).palette, pc.shades = []) := by
  constructor
  · intro c hc
    rw [editBase, if_neg hc]
    exact ⟨generatePaletteList_length c, generatePaletteList_shades c⟩
  · intro input hv hc
    rw [handleHexInput, if_pos hv, if_neg hc]
    exact ⟨generatePaletteList_length _, generatePaletteList_shades _⟩

/-- Witness for C6: a state with palette index 3 and a shade at group 1,
position 2 selected; editing the base hue leaves an 8-entry palette with
no shades anywhere. -/
theorem baseMutation_invalidates_shades_witness :
    ({ initState with
        selectedColor := some 3,
        selectedShade := some { h := 195, s := 70, l := 60, rowIndex := 1, index := 2 }
        : State }).selectedColor = some 3 ∧
    (editBase { h := 46, s := 70, l := 60 }
        { initState with
            selectedColor := some 3,
            selectedShade :=
              some { h := 195, s := 70, l := 60, rowIndex := 1, index := 2 } }).palette.length
      = 8 := by
  constructor
  · rfl
  · exact ((baseMutation_invalidates_shades _ 3
      { h := 195, s := 70, l := 60, rowIndex := 1, index := 2 } rfl rfl).1
        { h := 46, s := 70, l := 60 } (by decide)).1

/-- C7: whenever the palette has an entry at index `i`, clicking that
palette color (running `generateShades`) selects index `i` and resets the
selected shade to `none`, whatever was selected before. -/
theorem generateShades_selection (st : State) (c : Color) (i : Nat)
    (hi : i < st.palette.length) :
    (generateShades c (i : Int) st).selectedColor = some i ∧
    (generateShades c (i : Int) st).selectedShade = none := by
  have hcond : 0 ≤ (i : Int) ∧ ((i : Int)).toNat < st.palette.length := by
    constructor
    · exact Int.natCast_nonneg i
    · simpa using hi
  rw [generateShades]
  simp only [if_pos hcond]
  simp

/-- Witness for C7: selecting index 5 of the initial palette while a
shade is already selected. -/
theorem generateShades_selection_witness :
    (5 : Nat) < initState.palette.length ∧
    (generateShades { h := 255, s := 70, l := 60 } (5 : Int)
        { initState with
            selectedShade :=
              some { h := 45, s := 70, l := 80, rowIndex := 0, index := 0 } }).selectedColor
      = some 5 ∧
    (generateShades { h := 255, s := 70, l := 60 } (5 : Int)
        { initState with
            selectedShade :=
              some { h := 45, s := 70, l := 80, rowIndex := 0, index := 0 } }).selectedShade
      = none := by
  refine ⟨by decide, ?_⟩
  exact generateShades_selection
    { initState with
        selectedShade := some { h := 45, s := 70, l := 80, rowIndex := 0, index := 0 } }
    { h := 255, s := 70, l := 60 } 5 (by decide)

/-- C8: base-color mutations (field edit or successful hex parse) leave
the selected palette index untouched while the palette itself is
regenerated from the new base color. -/
theorem baseMutation_keeps_selection (st : State) :
    (∀ c : Color,
      (editBase c st).selectedColor = st.selectedColor ∧
      (c ≠ st.baseColor → (editBase c st).palette = generatePaletteList c)) ∧
    (∀ input : String, validHex input = true →
      (handleHexInput input st).selectedColor = st.selectedColor ∧
      (colorOfHSL (hexToHSL input) ≠ st.baseColor →
        (handleHexInput input st).palette =
          generatePaletteList (colorOfHSL (hexToHSL input)))) := by
  constructor
  · intro c
    constructor
    · rw [editBase]
      split <;> rfl
    · intro hc
      rw [editBase, if_neg hc]
      rfl
  · intro input hv
    constructor
    · rw [handleHexInput, if_pos hv]
      split <;> rfl
    · intro hc
      rw [handleHexInput, if_pos hv, if_neg hc]
      rfl

/-- Witness for C8: with index 3 selected, a hue edit and the hex input
"#aabbcc" both preserve the selected index. -/
theorem baseMutation_keeps_selection_witness :
    (editBase { h := 46, s := 70, l := 60 }
        { initState with selectedColor := some 3 }).selectedColor = some 3 ∧
    (editBase { h := 46, s := 70, l := 60 }
        { initState with selectedColor := some 3 }).palette
      = generatePaletteList { h := 46, s := 70, l := 60 } ∧
    validHex "#aabbcc" = true ∧
    (handleHexInput "#aabbcc"
        { initState with selectedColor := some 3 }).selectedColor = some 3 := by
  refine ⟨?_, ?_, by decide, ?_⟩
  · exact ((baseMutation_keeps_selection
      { initState with selectedColor := some 3 }).1 { h := 46, s := 70, l := 60 }).1
  · exact ((baseMutation_keeps_selection
      { initState with selectedColor := some 3 }).1 { h := 46, s := 70, l := 60 }).2
      (by decide)
  · exact ((baseMutation_keeps_selection
      { initState with selectedColor := some 3 }).2 "#aabbcc" (by decide)).1

/-- C10: when the palette has no entry at index `i` (negative index, or
`i` at least the palette length, including the empty palette),
`generateShades` is a no-op: the whole state is returned unchanged. -/
theorem generateShades_out_of_range (st : State) (c : Color) (i : Int)
    (hi : i < 0 ∨ (st.palette.length : Int) ≤ i) :
    generateShades c i st = st := by
  rw [generateShades]
  simp only [if_neg (by omega : ¬(0 ≤ i ∧ i.toNat < st.palette.length))]

/-- Witness for C10: on the initial state (palette length 8), index -1
and index 8 both leave the state untouched. -/
theorem generateShades_out_of_range_witness :
    ((-1 : Int) < 0 ∨ (initState.palette.length : Int) ≤ -1) ∧
    generateShades { h := 0, s := 0, l := 0 } (-1) initState = initState ∧
    generateShades { h := 0, s := 0, l := 0 } 8 initState = initState :=
  ⟨Or.inl (by decide),
    generateShades_out_of_range initState { h := 0, s := 0, l := 0 } (-1) (Or.inl (by decide)),
    generateShades_out_of_range initState { h := 0, s := 0, l := 0 } 8
      (Or.inr (by decide))⟩


/-- C9: for channels in [0,255], `RGBToHex` returns a 7-character string:
'#' followed by each channel as exactly two zero-padded lowercase hex
digits, in the order r, g, b; every character after the '#' is a
lowercase hex digit. -/
theorem RGBToHex_format (r g b : Nat) (hr : r ≤ 255) (hg : g ≤ 255) (hb : b ≤ 255) :
    (RGBToHex r g b).length = 7 ∧
    (RGBToHex r g b).data = '#' :: (lowerHexPair r ++ lowerHexPair g ++ lowerHexPair b) ∧
    ∀ ch ∈ (RGBToHex r g b).data.tail, ch ∈ lowerHexDigits := by
  have hkey := toHexPadded_two
  have hmem : ∀ d, d < 16 → Nat.digitChar d ∈ lowerHexDigits := by decide
  have hdata : (RGBToHex r g b).data
      = '#' :: (lowerHexPair r ++ lowerHexPair g ++ lowerHexPair b) := by
    rw [RGBToHex]
    show ('#' :: (toHexPadded r ++ toHexPadded g ++ toHexPadded b)) = _
    rw [hkey r (by omega), hkey g (by omega), hkey b (by omega)]
  refine ⟨?_, hdata, ?_⟩
  · rw [show (RGBToHex r g b).length = (RGBToHex r g b).data.length from rfl, hdata]
    simp [lowerHexPair]
  · intro ch hch
    rw [hdata] at hch
    simp only [List.tail_cons, List.mem_append, lowerHexPair, List.mem_cons,
      List.not_mem_nil, or_false] at hch
    rcases hch with (h | h) | h <;> rcases h with h | h <;> rw [h] <;>
      exact hmem _ (by omega)

/-- Witness for C9 at (255, 100, 0): length 7 and the digit layout
f f 6 4 0 0. -/
theorem RGBToHex_format_witness :
    (RGBToHex 255 100 0).length = 7 ∧
    (RGBToHex 255 100 0).data
      = '#' :: (lowerHexPair 255 ++ lowerHexPair 100 ++ lowerHexPair 0) :=
  ⟨(RGBToHex_format 255 100 0 (by decide) (by decide) (by decide)).1,
   (RGBToHex_format 255 100 0 (by decide) (by decide) (by decide)).2.1⟩


/-- C3 counterexample: the round trip RGB -> hex -> HSL -> RGB moves the
input (2, 228, 230) to (2, 223, 227) - the green channel comes back 5 off
and the blue channel 3 off - so the claimed tolerance of at most 1 per
channel is false. -/
theorem roundTrip_not_within_one :
    roundTrip 2 228 230 = (2, 223, 227) ∧
    ¬ (((roundTrip 2 228 230).2.1 - (228 : Int)).natAbs ≤ 1 ∧
       ((roundTrip 2 228 230).2.2 - (230 : Int)).natAbs ≤ 1) := by
  with_unfolding_all decide

/-- C3 (amended): the +-1 round-trip bound does not hold for arbitrary
triples (see the counterexample); it does hold on every achromatic
triple (r, r, r) with r in [0,255], each output channel differing from
`r` by at most 1. -/
theorem roundTrip_gray_pm_one (r : Nat) (hr : r < 256) :
    ((roundTrip r r r).1 - (r : Int)).natAbs ≤ 1 ∧
    ((roundTrip r r r).2.1 - (r : Int)).natAbs ≤ 1 ∧
    ((roundTrip r r r).2.2 - (r : Int)).natAbs ≤ 1 := by
  have h1 := hexToHSL_RGBToHex r r r hr hr hr
  have h2 := hexToHSLnum_gray ((r : ℚ) / 255)
  have hL : jsRound ((r : ℚ) / 255 * 100) = (200 * (r : ℤ) + 255) / 510 := by
    have he : (r : ℚ) / 255 * 100 = ((100 * (r : ℤ) : ℤ) : ℚ) / ((255 : ℕ) : ℚ) := by
      push_cast
      ring
    rw [he, jsRound_div _ _ (by norm_num)]
    omega
  have hR : ∀ L : ℤ, jsRound (255 * ((L : ℚ) / 100)) = (510 * L + 100) / 200 := by
    intro L
    have he : (255 : ℚ) * ((L : ℚ) / 100) = ((255 * L : ℤ) : ℚ) / ((100 : ℕ) : ℚ) := by
      push_cast
      ring
    rw [he, jsRound_div _ _ (by norm_num)]
    omega
  simp only [roundTrip, h1, h2]
  norm_num
  rw [HSLToRGB_sat_zero]
  simp only [hR, hL]
  norm_num
  omega

/-- Witness for the amended C3 at the achromatic triple (128,128,128). -/
theorem roundTrip_gray_pm_one_witness :
    (128 : Nat) < 256 ∧
    (((roundTrip 128 128 128).1 - (128 : Int)).natAbs ≤ 1 ∧
     ((roundTrip 128 128 128).2.1 - (128 : Int)).natAbs ≤ 1 ∧
     ((roundTrip 128 128 128).2.2 - (128 : Int)).natAbs ≤ 1) :=
  ⟨by norm_num, roundTrip_gray_pm_one 128 (by norm_num)⟩


/-- C4 (amended): for every regex-valid hex string, `hexToHSL` returns
integers with h in [0,360] - the upper bound 360 is attained, so the
claimed strict bound h < 360 is false (see the counterexample) - and
s, l in [0,100]. -/
theorem hexToHSL_range (s : String) (hv : validHex s = true) :
    0 ≤ (hexToHSL s).1 ∧ (hexToHSL s).1 ≤ 360 ∧
    0 ≤ (hexToHSL s).2.1 ∧ (hexToHSL s).2.1 ≤ 100 ∧
    0 ≤ (hexToHSL s).2.2 ∧ (hexToHSL s).2.2 ≤ 100 := by
  rw [validHex] at hv
  rcases hst : stripHash s.data with
      _ | ⟨c0, _ | ⟨c1, _ | ⟨c2, _ | ⟨c3, _ | ⟨c4, _ | ⟨c5, _ | ⟨c6, t⟩⟩⟩⟩⟩⟩⟩ <;>
      rw [hst] at hv <;> simp only [hex6] at hv <;>
    try exact absurd hv Bool.false_ne_true
  rw [hexToHSL, hst]
  obtain ⟨h10, h11⟩ := channel_frac_bounds c0 c1
  obtain ⟨h20, h21⟩ := channel_frac_bounds c2 c3
  obtain ⟨h30, h31⟩ := channel_frac_bounds c4 c5
  exact hexToHSLnum_bounds _ _ _ h10 h11 h20 h21 h30 h31

/-- C4 counterexample: the valid input "#ff0001" parses to hue exactly
360, refuting the claim that the hue is strictly below 360. -/
theorem hexToHSL_hue_reaches_360 :
    hexToHSL "#ff0001" = (360, 100, 50) ∧ ¬ ((hexToHSL "#ff0001").1 < 360) := by
  with_unfolding_all decide

/-- Witness for the amended C4 at the valid input "#aabbcc". -/
theorem hexToHSL_range_witness :
    validHex "#aabbcc" = true ∧
    (0 ≤ (hexToHSL "#aabbcc").1 ∧ (hexToHSL "#aabbcc").1 ≤ 360 ∧
     0 ≤ (hexToHSL "#aabbcc").2.1 ∧ (hexToHSL "#aabbcc").2.1 ≤ 100 ∧
     0 ≤ (hexToHSL "#aabbcc").2.2 ∧ (hexToHSL "#aabbcc").2.2 ≤ 100) :=
  ⟨by decide, hexToHSL_range "#aabbcc" (by decide)⟩

end ColorPalette
